import Mathlib

/-!
Shallow embedding of the Answer Service (api/index.js): an Express app with
four routes (list, upload, delete, serve-file), a memoized MongoDB connection
manager gating every request, multer disk storage for uploaded files, and a
Mongoose "Answer" collection.

The embedding models the process state explicitly: the MONGO_URI environment
variable, the cached connection handle, the stored Answer records, the local
filesystem (a map from absolute paths to byte contents), and two outcome
oracles standing for the external world (whether a mongoose.connect attempt
succeeds, whether an fs.unlink call succeeds).
-/

namespace MainsApi

/-- A multipart file part as multer delivers it: the client-supplied original
filename, the client-supplied content type of the part, and the payload bytes. -/
structure FilePart where
  originalname : String
  mimetype : String
  bytes : List Nat
deriving DecidableEq

/-- The non-file form fields of a POST /api/upload request (req.body); each is
absent when the client omits the field, mirroring the optional Mongoose schema. -/
structure UploadBody where
  title : Option String
  question : Option String
  uploadDate : Option String
  gsPaper : Option String
  srcField : Option String
deriving DecidableEq

/-- An Answer document of the Mongoose answerSchema: all fields are optional
Strings (no field is enforced non-null); id models the unique _id the store
assigns on creation. -/
structure Answer where
  id : Nat
  title : Option String
  fileName : Option String
  filePath : Option String
  question : Option String
  uploadDate : Option String
  gsPaper : Option String
  srcField : Option String
  mimeType : Option String
deriving DecidableEq

/-- Split a character list at every occurrence of the separator; acc holds the
characters of the current component in reverse. Structural recursion is used
throughout these string utilities so that every definition evaluates inside
the kernel. -/
def splitCharsAux (sep : Char) : List Char → List Char → List (List Char)
  | [], acc => [acc.reverse]
  | c :: cs, acc =>
    if c = sep then acc.reverse :: splitCharsAux sep cs []
    else splitCharsAux sep cs (c :: acc)

/-- The components of s between occurrences of the separator character (the
single-character case of String.splitOn). -/
def splitOnChar (sep : Char) (s : String) : List String :=
  (splitCharsAux sep s.data []).map String.mk

/-- Concatenate segments with "/" between them. -/
def joinSegs : List String → String
  | [] => ""
  | [s] => s
  | s :: rest => s ++ "/" ++ joinSegs rest

/-- Path components of a POSIX path string, dropping empty segments and "." . -/
def splitPath (s : String) : List String :=
  (splitOnChar '/' s).filter (fun p => p != "" && p != ".")

/-- Resolve ".." segments of an absolute path by popping the previous segment
(".." at the root is dropped, as POSIX normalization does for absolute paths). -/
def normSegs (segs : List String) : List String :=
  List.foldl (fun acc s => if s = ".." then acc.dropLast else acc ++ [s]) [] segs

/-- Node's path.join(a, b) for an absolute first argument (the only use in the
source): concatenate with a separator, then normalize "." and ".." segments. -/
def pathJoin (a b : String) : String :=
  "/" ++ joinSegs (normSegs (splitPath (a ++ "/" ++ b)))

/-- The upload directory, path.join('/tmp', 'uploads') in the source. -/
def uploadDir : String :=
  pathJoin "/tmp" "uploads"

/-- The local filesystem: an association from absolute paths to byte contents. -/
abbrev Fs : Type := List (String × List Nat)

/-- Write (create or overwrite) the file at path p with contents bs. -/
def fsWrite (fs : Fs) (p : String) (bs : List Nat) : Fs :=
  (p, bs) :: List.filter (fun e => e.1 != p) fs

/-- Read the file at path p, if present. -/
def fsRead (fs : Fs) (p : String) : Option (List Nat) :=
  (List.find? (fun e => e.1 == p) fs).map (fun e => e.2)

/-- fs.existsSync: whether a file is present at path p. -/
def fsExists (fs : Fs) (p : String) : Bool :=
  (List.find? (fun e => e.1 == p) fs).isSome

/-- fs.unlink (successful case): remove the file at path p. -/
def fsUnlink (fs : Fs) (p : String) : Fs :=
  List.filter (fun e => e.1 != p) fs

/-- Whether path p lies strictly under directory dir. -/
def isUnder (dir p : String) : Bool :=
  List.isPrefixOf (dir ++ "/").data p.data

/-- Modelled from the spec: the serve-file route "streams it back with inferred
content type". This models the content-type inference express res.sendFile
performs from the served file's extension via the mime database (the express
and send packages are third-party code, not part of this repository); only the
extensions exercised here need to be accurate, everything else falls back to
the default application/octet-stream. The charset parameter express appends to
some text types is not modelled. -/
def mimeOfExt (ext : String) : String :=
  if ext = "pdf" then "application/pdf"
  else if ext = "txt" then "text/plain"
  else if ext = "png" then "image/png"
  else if ext = "jpg" then "image/jpeg"
  else if ext = "jpeg" then "image/jpeg"
  else if ext = "json" then "application/json"
  else "application/octet-stream"

/-- The extension of the last path component (text after the final dot), empty
when the basename has no dot. -/
def extOf (p : String) : String :=
  let base := (List.getLast? (splitOnChar '/' p)).getD ""
  let parts := splitOnChar '.' base
  if parts.length ≤ 1 then "" else (List.getLast? parts).getD ""

/-- Content type inferred for a served path, see mimeOfExt. -/
def mimeOfPath (p : String) : String :=
  mimeOfExt (extOf p)

/-- Errors the connection manager can raise: the missing-MONGO_URI
configuration error thrown before any connect attempt, or a failure of the
mongoose.connect call itself. -/
inductive ConnError where
  | configError
  | connectFailed
deriving DecidableEq

/-- The error.message text carried by a connection failure. The configError
text is the literal thrown in the source; the connectFailed text stands for
whatever message the MongoDB driver produced (its exact content is external to
the repository and no claim depends on it). -/
def errMessage : ConnError → String
  | ConnError.configError => "MONGO_URI environment variable is not set."
  | ConnError.connectFailed => "MongoDB connection error"

/-- The whole process state: environment, cached connection, connect-attempt
counter, records of the Answer collection, the next store-assigned id, the
local filesystem, and the two outcome oracles (connOk tells whether the n-th
mongoose.connect attempt succeeds; unlinkOk tells whether an fs.unlink of a
given path succeeds). -/
structure ServerState where
  mongoURI : Option String
  cachedDb : Option Nat
  connectAttempts : Nat
  records : List Answer
  nextId : Nat
  fs : Fs
  connOk : Nat → Bool
  unlinkOk : String → Bool

/-- connectToDatabase: return the cached handle if present; otherwise throw
configError when MONGO_URI is unset (before any connect attempt), otherwise
invoke mongoose.connect (one attempt, outcome from the connOk oracle),
memoizing the fresh handle only on success. The handle is modelled as the
index of the successful attempt, so distinct establishments yield distinct
handles. -/
def connectToDatabase (st : ServerState) : Except ConnError Nat × ServerState :=
  match st.cachedDb with
  | some db => (Except.ok db, st)
  | none =>
    match st.mongoURI with
    | none => (Except.error ConnError.configError, st)
    | some _ =>
      if st.connOk st.connectAttempts then
        (Except.ok st.connectAttempts,
         { st with cachedDb := some st.connectAttempts,
                   connectAttempts := st.connectAttempts + 1 })
      else
        (Except.error ConnError.connectFailed,
         { st with connectAttempts := st.connectAttempts + 1 })

/-- Process startup (module load): no connection is opened and MONGO_URI is
not read; the state starts with an empty collection view, an empty upload
directory and no cached handle, whatever the environment holds. -/
def initServer (env : Option String) (co : Nat → Bool) (uo : String → Bool) : ServerState :=
  { mongoURI := env, cachedDb := none, connectAttempts := 0, records := [],
    nextId := 0, fs := [], connOk := co, unlinkOk := uo }

/-- The body of an HTTP response: a JSON document (a single record, an array
of records, or a message object with an optional error detail), a plain-text
body (res.send with a string), or raw file bytes with a content type
(res.sendFile). -/
inductive RespBody where
  | jsonRecord (a : Answer)
  | jsonRecords (l : List Answer)
  | jsonMessage (message : String) (error : Option String)
  | text (s : String)
  | fileContent (bytes : List Nat) (contentType : String)
deriving DecidableEq

/-- Whether the body is a JSON document. -/
def RespBody.isJson : RespBody → Bool
  | RespBody.jsonRecord _ => true
  | RespBody.jsonRecords _ => true
  | RespBody.jsonMessage _ _ => true
  | RespBody.text _ => false
  | RespBody.fileContent _ _ => false

/-- An HTTP response: status code and body. -/
structure Response where
  status : Nat
  body : RespBody
deriving DecidableEq

/-- An inbound API request. upload carries the current time in milliseconds
(Date.now()), the optional file part, and the form fields; serve carries the
:fileName route parameter after URL decoding. -/
inductive Request where
  | list
  | upload (now : Nat) (file : Option FilePart) (body : UploadBody)
  | delete (id : Nat)
  | serve (fileName : String)
deriving DecidableEq

/-- Whether the request targets the file-serving route GET /api/uploads/:fileName. -/
def Request.isServe : Request → Bool
  | Request.serve _ => true
  | _ => false

/-- The stored filename multer generates: Date.now() + "-" + file.originalname. -/
def generatedName (now : Nat) (f : FilePart) : String :=
  Nat.repr now ++ "-" ++ f.originalname

/-- Lexicographic comparison of character sequences by code point (for the
ASCII date strings at issue this coincides with MongoDB's UTF-8 byte
comparison, since UTF-8 encoding preserves code-point order). -/
def charsLe : List Char → List Char → Bool
  | [], _ => true
  | _ :: _, [] => false
  | a :: as, b :: bs =>
    if a.toNat < b.toNat then true
    else if b.toNat < a.toNat then false
    else charsLe as bs

/-- Lexicographic string comparison, x at most y. -/
def strLe (x y : String) : Bool :=
  charsLe x.data y.data

/-- Descending comparison on the stored uploadDate values: larger strings
first under lexicographic string comparison; an absent value sorts after every
present string, as a missing field does in a MongoDB descending sort. -/
def optDateGe : Option String → Option String → Bool
  | none, none => true
  | none, some _ => false
  | some _, none => true
  | some x, some y => strLe y x

/-- The descending uploadDate ordering on records, as a relation. -/
def dateGeRel : Answer → Answer → Prop :=
  fun a b => optDateGe a.uploadDate b.uploadDate = true

instance : DecidableRel dateGeRel :=
  fun _ _ => inferInstanceAs (Decidable (_ = true))

/-- Answer.find().sort(...): the records ordered by uploadDate descending. -/
def sortAnswersDesc (l : List Answer) : List Answer :=
  List.insertionSort dateGeRel l

/-- GET /api/answers: all records, uploadDate descending, as JSON. -/
def handleList (st : ServerState) : Response × ServerState :=
  ({ status := 200, body := RespBody.jsonRecords (sortAnswersDesc st.records) }, st)

/-- POST /api/upload: when a file part is present, multer has already written
its bytes under the generated name in the upload directory; the created record
carries the generated fileName, the full filePath and the part's mimetype, or
null for all three when no file part was sent. The record is persisted and
returned with status 201. -/
def handleUpload (now : Nat) (file : Option FilePart) (body : UploadBody)
    (st : ServerState) : Response × ServerState :=
  match file with
  | some f =>
    let fn := generatedName now f
    let fp := pathJoin uploadDir fn
    let a : Answer :=
      { id := st.nextId, title := body.title, fileName := some fn,
        filePath := some fp, question := body.question,
        uploadDate := body.uploadDate, gsPaper := body.gsPaper,
        srcField := body.srcField, mimeType := some f.mimetype }
    ({ status := 201, body := RespBody.jsonRecord a },
     { st with fs := fsWrite st.fs fp f.bytes,
               records := st.records ++ [a], nextId := st.nextId + 1 })
  | none =>
    let a : Answer :=
      { id := st.nextId, title := body.title, fileName := none,
        filePath := none, question := body.question,
        uploadDate := body.uploadDate, gsPaper := body.gsPaper,
        srcField := body.srcField, mimeType := none }
    ({ status := 201, body := RespBody.jsonRecord a },
     { st with records := st.records ++ [a], nextId := st.nextId + 1 })

/-- DELETE /api/answers/:id: 404 with a plain-text body when no record has the
id; otherwise best-effort file cleanup (only when the record has a filePath
that still exists; an unlink failure is logged and changes nothing), then the
record is removed and a JSON confirmation returned. -/
def handleDelete (id : Nat) (st : ServerState) : Response × ServerState :=
  match List.find? (fun a => a.id == id) st.records with
  | none => ({ status := 404, body := RespBody.text "Answer not found" }, st)
  | some a =>
    let fs' :=
      match a.filePath with
      | some fp =>
        if fsExists st.fs fp then
          (if st.unlinkOk fp then fsUnlink st.fs fp else st.fs)
        else st.fs
      | none => st.fs
    ({ status := 200, body := RespBody.jsonMessage "Answer deleted successfully" none },
     { st with fs := fs',
               records := List.eraseP (fun a => a.id == id) st.records })

/-- GET /api/uploads/:fileName: join the decoded parameter onto the upload
directory; serve the bytes found there (content type inferred from the path,
see mimeOfPath), else a plain-text 404. -/
def handleServe (fileName : String) (st : ServerState) : Response :=
  let fp := pathJoin uploadDir fileName
  match fsRead st.fs fp with
  | some bs => { status := 200, body := RespBody.fileContent bs (mimeOfPath fp) }
  | none =>
    { status := 404,
      body := RespBody.text "File not found. It may have been cleared from temporary storage." }

/-- A full request: the connection middleware runs first and rejects with a
500 JSON body when connectToDatabase throws; otherwise the request is
dispatched to its route handler. Store reads and writes themselves are
modelled as infallible, so the per-route catch branches (all of which produce
JSON 500 bodies) are unreachable in the model. -/
def handleRequest (req : Request) (st : ServerState) : Response × ServerState :=
  match connectToDatabase st with
  | (Except.error e, st') =>
    ({ status := 500,
       body := RespBody.jsonMessage "Database connection failed" (some (errMessage e)) }, st')
  | (Except.ok _, st') =>
    match req with
    | Request.list => handleList st'
    | Request.upload now file body => handleUpload now file body st'
    | Request.delete id => handleDelete id st'
    | Request.serve fileName => (handleServe fileName st', st')

/-! Concrete fixtures used to evaluate the model on specific inputs. -/

/-- Outcome oracle under which every connect attempt succeeds. -/
def demoConnOk : Nat → Bool := fun _ => true

/-- Outcome oracle under which every unlink succeeds. -/
def demoUnlinkOk : String → Bool := fun _ => true

/-- A state whose connection is already cached (one successful request has
run), with an empty collection and an empty upload directory. -/
def demoState : ServerState :=
  { mongoURI := some "mongodb://demo", cachedDb := some 0, connectAttempts := 1,
    records := [], nextId := 0, fs := [], connOk := demoConnOk,
    unlinkOk := demoUnlinkOk }

/-- Form fields carrying uploadDate "2024-01-01". -/
def demoBodyJan : UploadBody :=
  { title := some "jan", question := none, uploadDate := some "2024-01-01",
    gsPaper := none, srcField := none }

/-- Form fields carrying uploadDate "2024-02-01". -/
def demoBodyFeb : UploadBody :=
  { title := some "feb", question := none, uploadDate := some "2024-02-01",
    gsPaper := none, srcField := none }

/-- The state after two file-less uploads from demoState, with uploadDate
"2024-01-01" first and "2024-02-01" second. -/
def demoTwoDates : ServerState :=
  (handleRequest (Request.upload 2 none demoBodyFeb)
    ((handleRequest (Request.upload 1 none demoBodyJan) demoState).2)).2

/-- The record the first demo upload creates. -/
def demoRecJan : Answer :=
  { id := 0, title := some "jan", fileName := none, filePath := none,
    question := none, uploadDate := some "2024-01-01", gsPaper := none,
    srcField := none, mimeType := none }

/-- The record the second demo upload creates. -/
def demoRecFeb : Answer :=
  { id := 1, title := some "feb", fileName := none, filePath := none,
    question := none, uploadDate := some "2024-02-01", gsPaper := none,
    srcField := none, mimeType := none }

/-- A file part whose submitted content type (application/pdf) disagrees with
its filename extension (.txt). -/
def demoPdfNamedTxt : FilePart :=
  { originalname := "notes.txt", mimetype := "application/pdf",
    bytes := [37, 80, 68, 70] }

/-- The state after uploading demoPdfNamedTxt at time 5 from demoState. -/
def demoStateServe : ServerState :=
  (handleRequest (Request.upload 5 (some demoPdfNamedTxt) demoBodyJan) demoState).2

/-- A stored record whose filePath points at a file that is no longer on disk. -/
def demoRecFile : Answer :=
  { id := 3, title := none, fileName := some "9-a.txt",
    filePath := some "/tmp/uploads/9-a.txt", question := none,
    uploadDate := none, gsPaper := none, srcField := none,
    mimeType := some "text/plain" }

/-- A connected state holding demoRecFile with an empty filesystem. -/
def demoStateDel : ServerState :=
  { demoState with records := [demoRecFile] }

/-- Bytes standing for a sensitive file outside the upload directory. -/
def demoSecret : List Nat := [114, 111, 111, 116]

/-- A connected state whose filesystem holds a file at /etc/passwd and nothing
under the upload directory. -/
def demoStateEtc : ServerState :=
  { demoState with fs := [("/etc/passwd", demoSecret)] }

/-- The state produced by the first successful connect from a fresh process. -/
def demoFirstConnect : ServerState :=
  (connectToDatabase (initServer (some "mongodb://demo") demoConnOk demoUnlinkOk)).2

/-! Helper lemmas shared by the claim theorems. -/

/-- With a cached handle, connectToDatabase returns it and changes nothing. -/
theorem connect_cached {st : ServerState} {d : Nat} (h : st.cachedDb = some d) :
    connectToDatabase st = (Except.ok d, st) := by
  unfold connectToDatabase
  rw [h]

/-- With a cached handle, a list request is exactly its route handler. -/
theorem handleRequest_list {st : ServerState} {d : Nat} (h : st.cachedDb = some d) :
    handleRequest Request.list st = handleList st := by
  unfold handleRequest
  rw [connect_cached h]

/-- With a cached handle, an upload request is exactly its route handler. -/
theorem handleRequest_upload {st : ServerState} {d : Nat} (h : st.cachedDb = some d)
    (now : Nat) (file : Option FilePart) (b : UploadBody) :
    handleRequest (Request.upload now file b) st = handleUpload now file b st := by
  unfold handleRequest
  rw [connect_cached h]

/-- With a cached handle, a delete request is exactly its route handler. -/
theorem handleRequest_delete {st : ServerState} {d : Nat} (h : st.cachedDb = some d)
    (i : Nat) :
    handleRequest (Request.delete i) st = handleDelete i st := by
  unfold handleRequest
  rw [connect_cached h]

/-- With a cached handle, a serve request is exactly its route handler. -/
theorem handleRequest_serve {st : ServerState} {d : Nat} (h : st.cachedDb = some d)
    (name : String) :
    handleRequest (Request.serve name) st = (handleServe name st, st) := by
  unfold handleRequest
  rw [connect_cached h]

/-- Reading back a freshly written file returns the written bytes. -/
theorem fsRead_fsWrite (fs : Fs) (p : String) (bs : List Nat) :
    fsRead (fsWrite fs p bs) p = some bs := by
  simp [fsRead, fsWrite]

/-- A path stored nowhere in the filesystem reads as absent. -/
theorem fsRead_eq_none {fs : Fs} {p : String} (h : ∀ e ∈ fs, e.1 ≠ p) :
    fsRead fs p = none := by
  have : List.find? (fun e => e.1 == p) fs = none := by
    rw [List.find?_eq_none]
    intro e he
    simpa using h e he
  simp [fsRead, this]

/-- The upload handler never touches the cached connection handle. -/
theorem handleUpload_cachedDb (now : Nat) (file : Option FilePart)
    (b : UploadBody) (st : ServerState) :
    (handleUpload now file b st).2.cachedDb = st.cachedDb := by
  cases file <;> rfl

/-- Lexicographic character comparison is total. -/
theorem charsLe_total : ∀ xs ys : List Char, charsLe xs ys = true ∨ charsLe ys xs = true
  | [], _ => Or.inl rfl
  | _ :: _, [] => Or.inr rfl
  | x :: xs, y :: ys => by
    simp only [charsLe]
    rcases Nat.lt_trichotomy x.toNat y.toNat with h | h | h
    · left
      simp [h]
    · have h1 : ¬ x.toNat < y.toNat := by omega
      have h2 : ¬ y.toNat < x.toNat := by omega
      simp only [if_neg h1, if_neg h2]
      exact charsLe_total xs ys
    · right
      simp [h]

/-- Lexicographic character comparison is transitive. -/
theorem charsLe_trans : ∀ xs ys zs : List Char,
    charsLe xs ys = true → charsLe ys zs = true → charsLe xs zs = true
  | [], _, _, _, _ => rfl
  | _ :: _, [], _, h1, _ => by simp [charsLe] at h1
  | _ :: _, _ :: _, [], _, h2 => by simp [charsLe] at h2
  | x :: xs, y :: ys, z :: zs, h1, h2 => by
    simp only [charsLe] at h1 h2 ⊢
    by_cases hxy : x.toNat < y.toNat <;> by_cases hyx : y.toNat < x.toNat <;>
      by_cases hyz : y.toNat < z.toNat <;> by_cases hzy : z.toNat < y.toNat <;>
      by_cases hxz : x.toNat < z.toNat <;> by_cases hzx : z.toNat < x.toNat <;>
      simp [hxy, hyx, hyz, hzy, hxz, hzx] at h1 h2 ⊢ <;>
      first
      | omega
      | exact charsLe_trans xs ys zs h1 h2

/-- The descending uploadDate comparison is total. -/
theorem optDateGe_total (u v : Option String) :
    optDateGe u v = true ∨ optDateGe v u = true := by
  match u, v with
  | none, none => exact Or.inl rfl
  | none, some _ => exact Or.inr rfl
  | some _, none => exact Or.inl rfl
  | some x, some y => exact charsLe_total y.data x.data

/-- The descending uploadDate comparison is transitive. -/
theorem optDateGe_trans {u v w : Option String} (h1 : optDateGe u v = true)
    (h2 : optDateGe v w = true) : optDateGe u w = true := by
  match u, v, w with
  | none, none, _ => exact h2
  | none, some _, _ => exact absurd h1 (by simp [optDateGe])
  | some _, none, none => rfl
  | some _, none, some _ => exact absurd h2 (by simp [optDateGe])
  | some _, some _, none => rfl
  | some x, some y, some z => exact charsLe_trans z.data y.data x.data h2 h1

instance : IsTotal Answer dateGeRel where
  total a b := optDateGe_total a.uploadDate b.uploadDate

instance : IsTrans Answer dateGeRel where
  trans _ _ _ h1 h2 := optDateGe_trans h1 h2

/-! The claim theorems. -/

/-- C1: an upload request carrying a file part (handled once the connection
middleware passes, here with a cached handle) returns 201 with a record whose
fileName, filePath and mimeType are all non-null: the fileName is the
generated <currentTimeMillis>-<originalFilename> name, the filePath is that
name joined under the upload directory, the mimeType is the submitted part's
content type, and the submitted bytes are readable at that path immediately
after the response. -/
theorem upload_with_file_record (st : ServerState) (d now : Nat) (f : FilePart)
    (b : UploadBody) (h : st.cachedDb = some d) :
    (handleRequest (Request.upload now (some f) b) st).1 =
      { status := 201,
        body := RespBody.jsonRecord
          { id := st.nextId, title := b.title,
            fileName := some (generatedName now f),
            filePath := some (pathJoin uploadDir (generatedName now f)),
            question := b.question, uploadDate := b.uploadDate,
            gsPaper := b.gsPaper, srcField := b.srcField,
            mimeType := some f.mimetype } } ∧
    fsRead (handleRequest (Request.upload now (some f) b) st).2.fs
      (pathJoin uploadDir (generatedName now f)) = some f.bytes := by
  rw [handleRequest_upload h]
  exact ⟨rfl, fsRead_fsWrite _ _ _⟩

/-- C1 witness: the theorem applied to a concrete connected state and file. -/
theorem upload_with_file_record_witness :
    (handleRequest (Request.upload 5 (some demoPdfNamedTxt) demoBodyJan) demoState).1 =
      { status := 201,
        body := RespBody.jsonRecord
          { id := demoState.nextId, title := demoBodyJan.title,
            fileName := some (generatedName 5 demoPdfNamedTxt),
            filePath := some (pathJoin uploadDir (generatedName 5 demoPdfNamedTxt)),
            question := demoBodyJan.question, uploadDate := demoBodyJan.uploadDate,
            gsPaper := demoBodyJan.gsPaper, srcField := demoBodyJan.srcField,
            mimeType := some demoPdfNamedTxt.mimetype } } ∧
    fsRead (handleRequest (Request.upload 5 (some demoPdfNamedTxt) demoBodyJan) demoState).2.fs
      (pathJoin uploadDir (generatedName 5 demoPdfNamedTxt)) = some demoPdfNamedTxt.bytes :=
  upload_with_file_record demoState 0 5 demoPdfNamedTxt demoBodyJan rfl

/-- C2: an upload request with no file part (handled once the connection
middleware passes) succeeds with 201, and the created record has fileName,
filePath and mimeType all null while the form fields are stored; no file is
written. -/
theorem upload_without_file_record (st : ServerState) (d now : Nat)
    (b : UploadBody) (h : st.cachedDb = some d) :
    (handleRequest (Request.upload now none b) st).1 =
      { status := 201,
        body := RespBody.jsonRecord
          { id := st.nextId, title := b.title, fileName := none,
            filePath := none, question := b.question,
            uploadDate := b.uploadDate, gsPaper := b.gsPaper,
            srcField := b.srcField, mimeType := none } } ∧
    (handleRequest (Request.upload now none b) st).2.fs = st.fs := by
  rw [handleRequest_upload h]
  exact ⟨rfl, rfl⟩

/-- C2 witness: the theorem applied to a concrete connected state. -/
theorem upload_without_file_record_witness :
    (handleRequest (Request.upload 1 none demoBodyJan) demoState).1 =
      { status := 201,
        body := RespBody.jsonRecord
          { id := demoState.nextId, title := demoBodyJan.title, fileName := none,
            filePath := none, question := demoBodyJan.question,
            uploadDate := demoBodyJan.uploadDate, gsPaper := demoBodyJan.gsPaper,
            srcField := demoBodyJan.srcField, mimeType := none } } ∧
    (handleRequest (Request.upload 1 none demoBodyJan) demoState).2.fs = demoState.fs :=
  upload_without_file_record demoState 0 1 demoBodyJan rfl

/-- C3: listing (with the connection cached) returns 200 with all stored
records ordered by uploadDate descending under lexicographic string
comparison: the body is exactly the descending-sorted records, which are a
permutation of the stored records and sorted for the descending relation; in
particular, after storing records dated 2024-01-01 and then 2024-02-01, the
2024-02-01 record comes first. -/
theorem list_sorted_desc (st : ServerState) (d : Nat) (h : st.cachedDb = some d) :
    (handleRequest Request.list st =
      ({ status := 200, body := RespBody.jsonRecords (sortAnswersDesc st.records) }, st) ∧
     List.Perm (sortAnswersDesc st.records) st.records ∧
     List.Sorted dateGeRel (sortAnswersDesc st.records)) ∧
    (handleRequest Request.list demoTwoDates).1.body =
      RespBody.jsonRecords [demoRecFeb, demoRecJan] := by
  refine ⟨⟨?_, ?_, ?_⟩, ?_⟩
  · rw [handleRequest_list h]
    rfl
  · exact List.perm_insertionSort dateGeRel st.records
  · exact List.sorted_insertionSort dateGeRel st.records
  · decide

/-- C3 witness: the theorem applied at a concrete connected state. -/
theorem list_sorted_desc_witness :
    (handleRequest Request.list demoState =
      ({ status := 200, body := RespBody.jsonRecords (sortAnswersDesc demoState.records) },
       demoState) ∧
     List.Perm (sortAnswersDesc demoState.records) demoState.records ∧
     List.Sorted dateGeRel (sortAnswersDesc demoState.records)) ∧
    (handleRequest Request.list demoTwoDates).1.body =
      RespBody.jsonRecords [demoRecFeb, demoRecJan] :=
  list_sorted_desc demoState 0 rfl

/-- C4: a delete request whose id matches no stored record returns the 404
not-found response and leaves the whole state unchanged: no record removed,
no file touched. -/
theorem delete_missing_unchanged (st : ServerState) (d i : Nat)
    (hconn : st.cachedDb = some d)
    (h : List.find? (fun a => a.id == i) st.records = none) :
    handleRequest (Request.delete i) st =
      ({ status := 404, body := RespBody.text "Answer not found" }, st) := by
  rw [handleRequest_delete hconn]
  unfold handleDelete
  rw [h]

/-- C4 witness: deleting id 7 from a connected state with no records. -/
theorem delete_missing_unchanged_witness :
    handleRequest (Request.delete 7) demoState =
      ({ status := 404, body := RespBody.text "Answer not found" }, demoState) :=
  delete_missing_unchanged demoState 0 7 rfl rfl

/-- C5: a delete request whose id matches a stored record removes the record
and returns the JSON success message regardless of file cleanup: when the
record has no filePath, or its file is already gone from disk, or the unlink
fails, the filesystem is left as it was, and the response is the same success
in every case. -/
theorem delete_existing_succeeds (st : ServerState) (d i : Nat) (a : Answer)
    (hconn : st.cachedDb = some d)
    (h : List.find? (fun r => r.id == i) st.records = some a) :
    (handleRequest (Request.delete i) st).1 =
      { status := 200, body := RespBody.jsonMessage "Answer deleted successfully" none } ∧
    (handleRequest (Request.delete i) st).2.records =
      List.eraseP (fun r => r.id == i) st.records ∧
    (a.filePath = none → (handleRequest (Request.delete i) st).2.fs = st.fs) ∧
    (∀ fp, a.filePath = some fp → fsExists st.fs fp = false →
      (handleRequest (Request.delete i) st).2.fs = st.fs) ∧
    (∀ fp, a.filePath = some fp → st.unlinkOk fp = false →
      (handleRequest (Request.delete i) st).2.fs = st.fs) := by
  rw [handleRequest_delete hconn]
  unfold handleDelete
  rw [h]
  refine ⟨rfl, rfl, ?_, ?_, ?_⟩
  · intro hfp
    simp only [hfp]
  · intro fp hfp hex
    simp only [hfp, hex]
    rfl
  · intro fp hfp hun
    simp only [hfp]
    by_cases hex : fsExists st.fs fp
    · simp [hex, hun]
    · simp [hex]

/-- C5 witness: deleting a record whose file is already gone from disk. -/
theorem delete_existing_succeeds_witness :
    (handleRequest (Request.delete 3) demoStateDel).1 =
      { status := 200, body := RespBody.jsonMessage "Answer deleted successfully" none } ∧
    (handleRequest (Request.delete 3) demoStateDel).2.records =
      List.eraseP (fun r => r.id == 3) demoStateDel.records ∧
    (handleRequest (Request.delete 3) demoStateDel).2.fs = demoStateDel.fs :=
  ⟨(delete_existing_succeeds demoStateDel 0 3 demoRecFile rfl rfl).1,
   (delete_existing_succeeds demoStateDel 0 3 demoRecFile rfl rfl).2.1,
   (delete_existing_succeeds demoStateDel 0 3 demoRecFile rfl rfl).2.2.2.1
     "/tmp/uploads/9-a.txt" rfl rfl⟩

/-- C6: the connection manager memoizes on success only: a successful call
caches exactly the handle it returns, and a further call then yields that
same handle with the state untouched, so mongoose.connect runs at most once
after a success; a failed call caches nothing and leaves the configuration
and the connect oracle in place, so the next call retries the connection from
scratch. -/
theorem connect_memoize_success_only (st : ServerState) :
    (∀ d st', connectToDatabase st = (Except.ok d, st') →
      connectToDatabase st' = (Except.ok d, st') ∧ st'.cachedDb = some d) ∧
    (∀ e st', connectToDatabase st = (Except.error e, st') →
      st'.cachedDb = none ∧ st'.mongoURI = st.mongoURI ∧ st'.connOk = st.connOk) := by
  constructor
  · intro d st' hok
    have hc : st'.cachedDb = some d := by
      cases hdb : st.cachedDb with
      | some db =>
        rw [connect_cached hdb] at hok
        injection hok with h1 h2
        injection h1 with h1
        rw [← h2, hdb, h1]
      | none =>
        cases huri : st.mongoURI with
        | none =>
          have hcomp : connectToDatabase st = (Except.error ConnError.configError, st) := by
            unfold connectToDatabase
            rw [hdb, huri]
          rw [hcomp] at hok
          exact absurd hok (by simp)
        | some uri =>
          by_cases hco : st.connOk st.connectAttempts
          · have hcomp : connectToDatabase st =
                (Except.ok st.connectAttempts,
                 { st with cachedDb := some st.connectAttempts,
                           connectAttempts := st.connectAttempts + 1 }) := by
              unfold connectToDatabase
              rw [hdb, huri, if_pos hco]
            rw [hcomp] at hok
            injection hok with h1 h2
            injection h1 with h1
            rw [← h2, h1]
          · have hcomp : connectToDatabase st =
                (Except.error ConnError.connectFailed,
                 { st with connectAttempts := st.connectAttempts + 1 }) := by
              unfold connectToDatabase
              rw [hdb, huri, if_neg hco]
            rw [hcomp] at hok
            exact absurd hok (by simp)
    exact ⟨connect_cached hc, hc⟩
  · intro e st' herr
    cases hdb : st.cachedDb with
    | some db =>
      rw [connect_cached hdb] at herr
      exact absurd herr (by simp)
    | none =>
      cases huri : st.mongoURI with
      | none =>
        have hcomp : connectToDatabase st = (Except.error ConnError.configError, st) := by
          unfold connectToDatabase
          rw [hdb, huri]
        rw [hcomp] at herr
        injection herr with h1 h2
        rw [← h2]
        exact ⟨hdb, huri, rfl⟩
      | some uri =>
        by_cases hco : st.connOk st.connectAttempts
        · have hcomp : connectToDatabase st =
              (Except.ok st.connectAttempts,
               { st with cachedDb := some st.connectAttempts,
                         connectAttempts := st.connectAttempts + 1 }) := by
            unfold connectToDatabase
            rw [hdb, huri, if_pos hco]
          rw [hcomp] at herr
          exact absurd herr (by simp)
        · have hcomp : connectToDatabase st =
              (Except.error ConnError.connectFailed,
               { st with connectAttempts := st.connectAttempts + 1 }) := by
            unfold connectToDatabase
            rw [hdb, huri, if_neg hco]
          rw [hcomp] at herr
          injection herr with h1 h2
          rw [← h2]
          exact ⟨hdb, huri, rfl⟩

/-- C6 witness: the first connect of a fresh configured process succeeds,
caches handle 0, and a second call returns the cached handle unchanged. -/
theorem connect_memoize_success_only_witness :
    connectToDatabase demoFirstConnect = (Except.ok 0, demoFirstConnect) ∧
    demoFirstConnect.cachedDb = some 0 :=
  (connect_memoize_success_only
      (initServer (some "mongodb://demo") demoConnOk demoUnlinkOk)).1
    0 demoFirstConnect rfl

/-- C7: with MONGO_URI absent and no cached handle (the first request of the
process; startup itself reads no configuration, initServer being defined for
an absent variable), connectToDatabase fails with the configuration error and
the gating middleware answers that request with a 500 JSON body, leaving the
state untouched, before any route handler runs. -/
theorem missing_uri_rejected (st : ServerState) (req : Request)
    (henv : st.mongoURI = none) (hdb : st.cachedDb = none) :
    connectToDatabase st = (Except.error ConnError.configError, st) ∧
    handleRequest req st =
      ({ status := 500,
         body := RespBody.jsonMessage "Database connection failed"
           (some "MONGO_URI environment variable is not set.") }, st) := by
  have hc : connectToDatabase st = (Except.error ConnError.configError, st) := by
    unfold connectToDatabase
    rw [hdb, henv]
  refine ⟨hc, ?_⟩
  unfold handleRequest
  rw [hc]
  rfl

/-- C7 witness: the first request of a fresh process with no MONGO_URI. -/
theorem missing_uri_rejected_witness :
    connectToDatabase (initServer none demoConnOk demoUnlinkOk) =
      (Except.error ConnError.configError, initServer none demoConnOk demoUnlinkOk) ∧
    handleRequest Request.list (initServer none demoConnOk demoUnlinkOk) =
      ({ status := 500,
         body := RespBody.jsonMessage "Database connection failed"
           (some "MONGO_URI environment variable is not set.") },
       initServer none demoConnOk demoUnlinkOk) :=
  missing_uri_rejected (initServer none demoConnOk demoUnlinkOk) Request.list rfl rfl

/-- C8 counterexample: the serve route does not return the submitted MIME
type. Uploading a part whose original filename is notes.txt but whose
submitted content type is application/pdf, then requesting the generated
name, serves the exact bytes but with content type text/plain, inferred from
the .txt extension and different from the submitted application/pdf. -/
theorem serve_mime_counterexample :
    demoPdfNamedTxt.mimetype = "application/pdf" ∧
    (handleRequest (Request.serve (generatedName 5 demoPdfNamedTxt)) demoStateServe).1 =
      { status := 200, body := RespBody.fileContent demoPdfNamedTxt.bytes "text/plain" } ∧
    "text/plain" ≠ "application/pdf" := by
  decide

/-- C8 amended: a fileName with no file stored at its resolved path gets 404;
a fileName just uploaded gets 200 with the exact bytes submitted, served with
the content type inferred from the stored file's extension (equal to the
submitted MIME type only when the two agree). -/
theorem serve_round_trip (st : ServerState) (d : Nat) (h : st.cachedDb = some d) :
    (∀ name : String, (∀ e ∈ st.fs, e.1 ≠ pathJoin uploadDir name) →
      handleRequest (Request.serve name) st =
        ({ status := 404,
           body := RespBody.text
             "File not found. It may have been cleared from temporary storage." }, st)) ∧
    (∀ now (f : FilePart) (b : UploadBody),
      handleRequest (Request.serve (generatedName now f))
          (handleRequest (Request.upload now (some f) b) st).2 =
        ({ status := 200,
           body := RespBody.fileContent f.bytes
             (mimeOfPath (pathJoin uploadDir (generatedName now f))) },
         (handleRequest (Request.upload now (some f) b) st).2)) := by
  constructor
  · intro name hnone
    rw [handleRequest_serve h]
    simp only [handleServe]
    rw [fsRead_eq_none hnone]
  · intro now f b
    have hc : (handleUpload now (some f) b st).2.cachedDb = some d := by
      rw [handleUpload_cachedDb]
      exact h
    rw [handleRequest_upload h, handleRequest_serve hc]
    simp only [handleServe]
    rw [show (handleUpload now (some f) b st).2.fs =
          fsWrite st.fs (pathJoin uploadDir (generatedName now f)) f.bytes from rfl,
        fsRead_fsWrite]

/-- C8 amended witness: both halves applied at the demo state. -/
theorem serve_round_trip_witness :
    handleRequest (Request.serve "nothing.txt") demoState =
      ({ status := 404,
         body := RespBody.text
           "File not found. It may have been cleared from temporary storage." }, demoState) ∧
    handleRequest (Request.serve (generatedName 5 demoPdfNamedTxt))
        (handleRequest (Request.upload 5 (some demoPdfNamedTxt) demoBodyJan) demoState).2 =
      ({ status := 200,
         body := RespBody.fileContent demoPdfNamedTxt.bytes
           (mimeOfPath (pathJoin uploadDir (generatedName 5 demoPdfNamedTxt))) },
       (handleRequest (Request.upload 5 (some demoPdfNamedTxt) demoBodyJan) demoState).2) :=
  ⟨(serve_round_trip demoState 0 rfl).1 "nothing.txt"
     (fun e he => absurd he (List.not_mem_nil e)),
   (serve_round_trip demoState 0 rfl).2 5 demoPdfNamedTxt demoBodyJan⟩

/-- C9 counterexample: the DELETE not-found response is not JSON. Deleting a
missing id from a connected state, a non-serve request, yields the plain-text
404 body "Answer not found". -/
theorem delete_not_found_is_text :
    (Request.delete 9).isServe = false ∧
    (handleRequest (Request.delete 9) demoState).1.body.isJson = false ∧
    (handleRequest (Request.delete 9) demoState).1 =
      { status := 404, body := RespBody.text "Answer not found" } := by
  decide

/-- C9 amended: every response on a non-file-serving route is JSON, with the
single exception of the DELETE not-found response, which is the plain-text
404 "Answer not found". -/
theorem responses_json_except (st : ServerState) (req : Request)
    (h : req.isServe = false) :
    (handleRequest req st).1.body.isJson = true ∨
    (handleRequest req st).1 =
      { status := 404, body := RespBody.text "Answer not found" } := by
  rcases hc : connectToDatabase st with ⟨r, st'⟩
  cases r with
  | error e =>
    have hr : handleRequest req st =
        ({ status := 500,
           body := RespBody.jsonMessage "Database connection failed"
             (some (errMessage e)) }, st') := by
      unfold handleRequest
      rw [hc]
    rw [hr]
    exact Or.inl rfl
  | ok dd =>
    cases req with
    | list =>
      have hr : handleRequest Request.list st = handleList st' := by
        unfold handleRequest
        rw [hc]
      rw [hr]
      exact Or.inl rfl
    | upload now file b =>
      have hr : handleRequest (Request.upload now file b) st = handleUpload now file b st' := by
        unfold handleRequest
        rw [hc]
      rw [hr]
      cases file with
      | none => exact Or.inl rfl
      | some f => exact Or.inl rfl
    | delete i =>
      have hr : handleRequest (Request.delete i) st = handleDelete i st' := by
        unfold handleRequest
        rw [hc]
      rw [hr]
      unfold handleDelete
      cases hf : List.find? (fun a => a.id == i) st'.records with
      | none => exact Or.inr rfl
      | some a => exact Or.inl rfl
    | serve name => simp [Request.isServe] at h

/-- C9 amended witness: the list route on the demo state answers JSON. -/
theorem responses_json_except_witness :
    (handleRequest Request.list demoState).1.body.isJson = true ∨
    (handleRequest Request.list demoState).1 =
      { status := 404, body := RespBody.text "Answer not found" } :=
  responses_json_except demoState Request.list rfl

/-- C10: the serve route does not confine the resolved path to the upload
directory. The fileName path segment "../../etc/passwd" (the URL-decoded form
of ..%2F..%2Fetc%2Fpasswd) joins to the absolute path /etc/passwd, which is
outside the upload directory, and when a file exists there its bytes are
served with status 200 instead of a 404. -/
theorem serve_path_traversal :
    pathJoin uploadDir "../../etc/passwd" = "/etc/passwd" ∧
    isUnder uploadDir (pathJoin uploadDir "../../etc/passwd") = false ∧
    (handleRequest (Request.serve "../../etc/passwd") demoStateEtc).1 =
      { status := 200, body := RespBody.fileContent demoSecret (mimeOfPath "/etc/passwd") } := by
  decide

end MainsApi
